import Mathlib

/-!
Shallow embedding of the user-management profile-picture pipeline:
  - app/utils/security.py       (password hashing, verification tokens)
  - app/utils/image_validator.py (image validation)
  - app/services/minio_service.py (object storage client)
  - app/routers/profile_picture_routes.py (upload orchestrator)

External collaborators (bcrypt, PIL, the minio network client, the
base64/json/datetime standard-library codecs) are modelled as explicit
parameters or abstract outcome values; the repository's own control flow is
translated branch by branch.
-/

/-- An HTTP error as carried by fastapi.HTTPException: status code and detail. -/
structure Http where
  status : Nat
  detail : String
deriving DecidableEq

/-- Outcome of a Python call: normal return or a raised exception. -/
inductive PyExc where
  | attributeError
  | typeError
  | httpException (e : Http)
deriving DecidableEq

/-- Result of running a Python function: a value or an uncaught exception. -/
inductive PyResult (α : Type) where
  | ret (a : α)
  | raise (e : PyExc)
deriving DecidableEq

/-! ## Token codec (app/utils/security.py lines 56-119)

`generate_verification_token` serialises `{"token": secret, "expires": iso}`
as JSON and base64-encodes it.  `verify_token_expiration` reverses the two
encodings and checks the expiry.  The base64/utf-8/json stages belong to the
standard library; we embed their *outcome* on a given input string as a
`DecodeResult`, and the `datetime` codec as explicit function parameters. -/

/-- A JSON value, as produced by json.loads. -/
inductive Json where
  | null
  | bool (b : Bool)
  | num (n : Int)
  | str (s : String)
  | arr (elems : List Json)
  | obj (fields : List (String × Json))

/-- Truthiness of a Python value under `if not x` (json.loads output or None,
here both conflated into `Json.null`). -/
def pyTruthy : Json → Bool
  | .null => false
  | .bool b => b
  | .num n => n != 0
  | .str s => s != ""
  | .arr l => !l.isEmpty
  | .obj f => !f.isEmpty

/-- dict.get(key): the value stored under `key` (json.loads keeps the last
duplicate), or None (`Json.null`) when absent. -/
def pyDictGet (fields : List (String × Json)) (key : String) : Json :=
  match fields.reverse.find? (fun kv => kv.1 == key) with
  | some kv => kv.2
  | none => Json.null

/-- Outcome of the decode pipeline of verify_token_expiration, lines 100-101:
base64.urlsafe_b64decode, bytes.decode, json.loads.  The three error cases
are binascii.Error, UnicodeDecodeError and json.JSONDecodeError; all three
are caught by the except clause at line 118 (UnicodeDecodeError and
JSONDecodeError are subclasses of ValueError). -/
inductive DecodeResult where
  | base64Error
  | utf8Error
  | jsonError
  | ok (j : Json)

/-- A datetime.datetime value: seconds since the epoch plus whether it is
timezone-aware.  datetime.fromisoformat returns naive values for strings
without an offset; comparing a naive value with the aware
datetime.now(timezone.utc) raises TypeError. -/
structure PyDatetime where
  seconds : Int
  aware : Bool
deriving DecidableEq

/-- security.py lines 56-85: the JSON payload of a freshly generated token is
`{"token": <random secret>, "expires": <aware iso timestamp>}`.  `fmt` stands
for datetime.isoformat on the aware expiry instant `now + h*3600` seconds. -/
def generate_verification_token (fmt : Int → String) (secret : String)
    (now : Int) (expiration_hours : Int) : Json :=
  Json.obj [("token", Json.str secret),
            ("expires", Json.str (fmt (now + expiration_hours * 3600)))]

/-- security.py lines 87-119, branch by branch.  `fromiso` stands for
datetime.fromisoformat (`none` models its ValueError, which line 118
catches); `d` is the decode outcome of the input string; `now` is
datetime.now(timezone.utc).  The second tuple component is whatever object
dict.get returned (a str for well-formed tokens). -/
def verify_token_expiration (fromiso : String → Option PyDatetime)
    (d : DecodeResult) (now : Int) : PyResult (Bool × Json) :=
  match d with
  | .base64Error => .ret (false, Json.str "")
  | .utf8Error => .ret (false, Json.str "")
  | .jsonError => .ret (false, Json.str "")
  | .ok j =>
    match j with
    | .obj fields =>
      let random_token := pyDictGet fields "token"
      let expiry_str := pyDictGet fields "expires"
      if !pyTruthy random_token || !pyTruthy expiry_str then
        .ret (false, Json.str "")
      else
        match expiry_str with
        | .str s =>
          match fromiso s with
          | none => .ret (false, Json.str "")
          | some expiry_time =>
            if !expiry_time.aware then
              .raise .typeError
            else if now > expiry_time.seconds then
              .ret (false, random_token)
            else
              .ret (true, random_token)
        | _ => .raise .typeError
    | _ => .raise .attributeError

/-! ## Image validator (app/utils/image_validator.py)

The PIL decode step (Image.open / img.verify / attribute access on the
reopened image) is an external library call; its outcome on a given byte
payload is a parameter `decode`.  Stream state is passed explicitly: `pos`
is the cursor of the underlying SpooledTemporaryFile. -/

/-- An uploaded file as seen by the validator (fastapi UploadFile): filename,
declared content type, full byte content, and whether the underlying stream
supports seeking (seek on a non-seekable stream raises). -/
structure UploadFileModel where
  filename : Option String
  content_type : Option String
  content : List Nat
  seekable : Bool

/-- Cursor state of the uploaded file's stream. -/
structure StreamState where
  pos : Nat
deriving DecidableEq

/-- Truthiness of an optional string under `if not x` (None and "" falsy). -/
def optStrTruthy : Option String → Bool
  | none => false
  | some s => s != ""

/-- str.startswith: the candidate's characters are a list prefix. -/
def py_startswith (s pre : String) : Bool := pre.data.isPrefixOf s.data

/-- str.endswith: the candidate's characters are a list suffix. -/
def py_endswith (s suf : String) : Bool := suf.data.isSuffixOf s.data

/-- str.lower, character by character. -/
def py_lower (s : String) : String := String.mk (s.data.map Char.toLower)

/-- str.split(sep) on character lists: "a.b".split(".") = ["a", "b"],
"".split(".") = [""], ".b".split(".") = ["", "b"]. -/
def py_split (sep : Char) : List Char → List (List Char)
  | [] => [[]]
  | c :: rest =>
    match py_split sep rest with
    | [] => [[]]
    | g :: gs => if c == sep then [] :: g :: gs else (c :: g) :: gs

/-- Outcome of the PIL decode step on a byte payload (lines 107-115):
UnidentifiedImageError, any other exception, or a decoded image with its
format, size and mode. -/
inductive ImgDecode where
  | unidentified
  | otherError (msg : String)
  | ok (format : String) (width height : Nat) (mode : String)

/-- Metadata returned on acceptance (lines 132-137). -/
structure ImageMetadata where
  format : String
  width : Nat
  height : Nat
  mode : String
deriving DecidableEq

/-- image_validator.py lines 54-58. -/
def ALLOWED_FORMATS : List (String × List String) :=
  [("JPEG", [".jpg", ".jpeg"]), ("PNG", [".png"]), ("GIF", [".gif"])]

/-- image_validator.py line 61. -/
def ALLOWED_EXTENSIONS : List String := (ALLOWED_FORMATS.map (fun kv => kv.2)).flatten

/-- image_validator.py lines 64-67. -/
def MAX_IMAGE_WIDTH : Nat := 5000
def MAX_IMAGE_HEIGHT : Nat := 5000
def MIN_IMAGE_WIDTH : Nat := 10
def MIN_IMAGE_HEIGHT : Nat := 10

/-- ALLOWED_FORMATS.get(img_format, []) at line 128. -/
def allowedFormatExts (fmt : String) : List String :=
  match ALLOWED_FORMATS.find? (fun kv => kv.1 == fmt) with
  | some kv => kv.2
  | none => []

/-- image_validator.py line 97: `"." + filename.split(".")[-1].lower()` when a
dot occurs in the filename, otherwise "". -/
def image_validator_file_ext (filename : String) : String :=
  if filename.data.contains '.' then
    "." ++ py_lower (String.mk ((py_split '.' filename.data).getLastD []))
  else ""

/-- Body of validate_image_file (lines 85-151), without the finally clause.
Returns the Python triple (is_valid, error_message, metadata) and the stream
state at the end of the try statement. -/
def validate_image_file_body (decode : List Nat → ImgDecode) (f : UploadFileModel)
    (st : StreamState) : (Bool × Option String × Option ImageMetadata) × StreamState :=
  if !optStrTruthy f.filename then
    ((false, some "Missing filename", none), st)
  else if !optStrTruthy f.content_type then
    ((false, some "Missing content type", none), st)
  else if !py_startswith (f.content_type.getD "") "image/" then
    ((false, some ("Invalid content type: " ++ f.content_type.getD "" ++
      ". Expected image format."), none), st)
  else
    let file_ext := image_validator_file_ext (f.filename.getD "")
    if !ALLOWED_EXTENSIONS.contains file_ext then
      ((false, some ("Invalid file extension: " ++ file_ext ++
        ". Allowed extensions are: " ++ String.intercalate ", " ALLOWED_EXTENSIONS),
        none), st)
    else if !f.seekable then
      -- `await file.seek(0)` at line 103 raises; the except at line 149 catches it
      ((false, some "Failed to validate image due to an internal error", none), st)
    else
      -- seek(0) then read(): the cursor ends up at the end of the content
      let st1 : StreamState := ⟨f.content.length⟩
      match decode f.content with
      | .unidentified => ((false, some "The file is not a valid image", none), st1)
      | .otherError msg =>
        ((false, some ("Image validation error: " ++ msg), none), st1)
      | .ok fmt w h mode =>
        if w > MAX_IMAGE_WIDTH || h > MAX_IMAGE_HEIGHT then
          ((false, some "Image dimensions too large. Maximum allowed: 5000x5000 pixels",
            none), st1)
        else if w < MIN_IMAGE_WIDTH || h < MIN_IMAGE_HEIGHT then
          ((false, some "Image dimensions too small. Minimum allowed: 10x10 pixels",
            none), st1)
        else if !(ALLOWED_FORMATS.map (fun kv => kv.1)).contains fmt then
          ((false, some ("Unsupported image format: " ++ fmt), none), st1)
        else if !(allowedFormatExts fmt).contains file_ext then
          ((false, some ("File extension " ++ file_ext ++
            " does not match the actual image format " ++ fmt), none), st1)
        else
          -- seek(0) at line 140 before the accepting return
          ((true, none, some ⟨fmt, w, h, mode⟩), ⟨0⟩)

/-- validate_image_file (lines 69-157): body plus the finally clause at lines
152-157, which attempts a final seek(0) and swallows its failure when the
stream is not seekable. -/
def validate_image_file (decode : List Nat → ImgDecode) (f : UploadFileModel)
    (st : StreamState) : (Bool × Option String × Option ImageMetadata) × StreamState :=
  let r := validate_image_file_body decode f st
  (r.1, if f.seekable then ⟨0⟩ else r.2)

/-- Ambient process state read by image_validator.py: the TEST_MODE
environment variable (line 19, line 174) and whether pytest is among the
loaded modules (line 16). -/
structure EnvState where
  test_mode_env : Bool
  in_pytest : Bool

/-- The byte content b"test image content" singled out at line 188. -/
def test_image_content : List Nat :=
  [116, 101, 115, 116, 32, 105, 109, 97, 103, 101, 32, 99, 111, 110, 116, 101, 110, 116]

/-- The placeholder metadata returned on the bypass path (lines 202-207). -/
def mock_metadata : ImageMetadata := ⟨"TEST", 100, 100, "RGB"⟩

/-- validate_image_and_raise (lines 159-219).  `pil` is the real PIL decode
outcome; in test mode the module-level binding (lines 19-36) replaces it by a
mock whose open() always reports format TEST, size 100x100, mode RGB.
Returns the Python return value (metadata, possibly None) or the raised
HTTPException, together with the stream state. -/
def validate_image_and_raise (env : EnvState) (pil : List Nat → ImgDecode)
    (f : UploadFileModel) (st : StreamState) :
    PyResult (Option ImageMetadata) × StreamState :=
  let test_mode := env.test_mode_env || env.in_pytest
  let decode := if test_mode then (fun _ => ImgDecode.ok "TEST" 100 100 "RGB") else pil
  if test_mode then
    if !f.seekable then
      -- seek at line 183 raises; the except at line 198 catches and falls
      -- through to the mock metadata return
      (.ret (some mock_metadata), st)
    else
      -- seek(0), read(), seek(0) at lines 183-185
      let st1 : StreamState := ⟨0⟩
      if f.content == test_image_content || f.content.length < 100 then
        (.ret (some mock_metadata), st1)
      else
        let r := validate_image_file decode f st1
        if r.1.1 then (.ret r.1.2.2, r.2)
        else (.ret (some mock_metadata), r.2)
  else
    let r := validate_image_file decode f st
    if r.1.1 then (.ret r.1.2.2, r.2)
    else (.raise (.httpException ⟨400, (r.1.2.1).getD ""⟩), r.2)

/-! ## Object store client (app/services/minio_service.py)

The minio network client is a collaborator: the outcome of each client call
(bucket_exists, make_bucket, put_object) is a field of `MinioWorld`, with
`some msg` standing for a raised error whose str() is `msg`.  Note that
fastapi's HTTPException subclasses Exception, so the blanket
`except Exception` at line 206 catches the HTTPExceptions raised inside the
try block at lines 117, 126 and 142 and re-raises them with status 500 and a
detail prefixed "Error processing file upload: ". -/

/-- A wall-clock instant as formatted by strftime("%Y%m%d_%H%M%S") at
line 87 of minio_service.py. -/
structure Timestamp where
  year : Nat
  month : Nat
  day : Nat
  hour : Nat
  minute : Nat
  second : Nat
deriving DecidableEq

/-- Bounds under which strftime's zero-padded rendering has fixed width; the
real calendar fields (month ≤ 12, …) satisfy them. -/
def Timestamp.Valid (t : Timestamp) : Prop :=
  t.year < 10000 ∧ t.month < 100 ∧ t.day < 100 ∧
    t.hour < 100 ∧ t.minute < 100 ∧ t.second < 100

instance (t : Timestamp) : Decidable t.Valid := by
  unfold Timestamp.Valid; infer_instance

/-- Two zero-padded decimal digits, as %m %d %H %M %S render values below 100. -/
def pad2l (n : Nat) : List Char := [Nat.digitChar (n / 10), Nat.digitChar (n % 10)]

/-- Four zero-padded decimal digits, as %Y renders years below 10000. -/
def pad4l (n : Nat) : List Char :=
  [Nat.digitChar (n / 1000), Nat.digitChar (n / 100 % 10),
   Nat.digitChar (n / 10 % 10), Nat.digitChar (n % 10)]

/-- strftime("%Y%m%d_%H%M%S"). -/
def Timestamp.strftime (t : Timestamp) : String :=
  String.mk (pad4l t.year ++ pad2l t.month ++ pad2l t.day ++ ['_'] ++
    pad2l t.hour ++ pad2l t.minute ++ pad2l t.second)

/-- os.path.splitext's extension part: it starts at the last dot, unless
every character before that dot is itself a dot (".bashrc" has none). -/
def splitext_ext (s : String) : String :=
  let cs := s.toList
  let after := cs.reverse.takeWhile (fun c => c != '.')
  if after.length = cs.length then ""
  else if (cs.take (cs.length - after.length - 1)).all (fun c => c == '.') then ""
  else String.mk ('.' :: after.reverse)

/-- minio_service.py line 90: the timestamped archive object name. -/
def archive_object_name (user_id : String) (ts : Timestamp) (ext : String) : String :=
  "profile_pictures/" ++ user_id ++ "/archive/profile_" ++ ts.strftime ++ ext

/-- minio_service.py line 94: the stable active object name. -/
def active_object_name (user_id : String) (ext : String) : String :=
  "profile_pictures/" ++ user_id ++ "/profile" ++ ext

/-- Calls issued to the minio client during an upload, in program order.
Only make_bucket and put_object mutate storage. -/
inductive StorageEvent where
  | bucketExistsCheck (bucket : String)
  | makeBucket (bucket : String)
  | putObject (bucket objectName : String) (size : Nat) (contentType : String)
deriving DecidableEq

/-- Outcomes of the collaborator calls an upload may make.  A `some msg`
outcome means the call raised an error whose str() is `msg`. -/
structure MinioWorld where
  bucket_name : String
  bucket_exists_raises : Option String
  bucket_exists : Bool
  make_bucket_raises : Option String
  archive_put_raises : Option String
  active_put_raises : Option String
  gen_uuid : String
deriving DecidableEq

/-- str() of a fastapi HTTPException: "status: detail". -/
def http_str (e : Http) : String := toString e.status ++ ": " ++ e.detail

/-- The try block of minio_service.py lines 100-198 (seek/read, size check,
extension check, content-type defaulting, empty check, the two put_object
calls, URL construction), before its except clauses.  Returns the result and
the storage events the block issued. -/
def minio_upload_try (w : MinioWorld) (f : UploadFileModel) (user_id : String)
    (file_extension archive_name active_name : String) :
    Except Http String × List StorageEvent :=
  let file_size := f.content.length
  if file_size > 5 * 1024 * 1024 then
    (.error ⟨400, "File size exceeds the 5MB limit"⟩, [])
  else if !([".jpg", ".jpeg", ".png", ".gif"].contains file_extension) then
    (.error ⟨400, "File type not allowed. Allowed types: .jpg, .jpeg, .png, .gif"⟩, [])
  else
    -- lines 131-135: default content type synthesised from the extension
    let content_type :=
      match f.content_type with
      | some ct =>
        if ct != "" && py_startswith ct "image/" then ct
        else if file_extension != ".jpg" then "image/" ++ file_extension.drop 1
        else "image/jpeg"
      | none =>
        if file_extension != ".jpg" then "image/" ++ file_extension.drop 1
        else "image/jpeg"
    if file_size = 0 then
      (.error ⟨400, "Empty file received. Please select a valid image file."⟩, [])
    else
      -- lines 148-150: the image-header sniff only logs, it changes nothing
      let evA := [StorageEvent.putObject w.bucket_name archive_name file_size content_type]
      match w.archive_put_raises with
      | some msg => (.error ⟨500, "Error saving archive copy: " ++ msg⟩, evA)
      | none =>
        let evC := evA ++
          [StorageEvent.putObject w.bucket_name active_name file_size content_type]
        match w.active_put_raises with
        | some msg => (.error ⟨500, "Error saving active copy: " ++ msg⟩, evC)
        | none =>
          (.ok ("https://example.com/profiles/" ++ user_id ++ "/picture"), evC)

/-- Lines 81-97 and 100-211 after the ensure-bucket block: filename
defaulting (a uuid-based name when the filename is falsy), extension
extraction, object-name construction, then the try block; any HTTPException
escaping the try is caught by the blanket `except Exception` at line 206 and
re-raised as 500 with the "Error processing file upload: " prefix.  `evB` is
the event trace of the ensure-bucket block.  (The seek at line 102 is on a
fastapi UploadFile, which is always seekable.) -/
def minio_upload_rest (w : MinioWorld) (f : UploadFileModel) (user_id : String)
    (ts : Timestamp) (evB : List StorageEvent) : Except Http String × List StorageEvent :=
  let filename :=
    if !optStrTruthy f.filename then "profile_" ++ w.gen_uuid ++ ".jpg"
    else f.filename.getD ""
  let file_extension := py_lower (splitext_ext filename)
  let archive_name := archive_object_name user_id ts file_extension
  let active_name := active_object_name user_id file_extension
  match minio_upload_try w f user_id file_extension archive_name active_name with
  | (.ok u, tr) => (.ok u, evB ++ tr)
  | (.error e, tr) =>
    (.error ⟨500, "Error processing file upload: " ++ http_str e⟩, evB ++ tr)

/-- MinioService.upload_profile_picture (lines 44-211): the ensure-bucket
block of lines 67-78 (its S3Errors become the 500 "Failed to initialize
storage" outside the main try), then the rest of the upload. -/
def minio_upload (w : MinioWorld) (f : UploadFileModel) (user_id : String)
    (ts : Timestamp) : Except Http String × List StorageEvent :=
  match w.bucket_exists_raises with
  | some msg =>
    (.error ⟨500, "Failed to initialize storage: " ++ msg⟩,
      [.bucketExistsCheck w.bucket_name])
  | none =>
    if w.bucket_exists then
      minio_upload_rest w f user_id ts [.bucketExistsCheck w.bucket_name]
    else
      match w.make_bucket_raises with
      | some msg =>
        (.error ⟨500, "Failed to initialize storage: " ++ msg⟩,
          [.bucketExistsCheck w.bucket_name, .makeBucket w.bucket_name])
      | none =>
        minio_upload_rest w f user_id ts
          [.bucketExistsCheck w.bucket_name, .makeBucket w.bucket_name]

/-! ## Upload orchestrator (app/routers/profile_picture_routes.py lines 31-194) -/

/-- The authenticated caller as delivered by require_role: the bearer
token's sub claim (held under "user_id") and its role. -/
structure CurrentUser where
  user_id : String
  role : String
deriving DecidableEq

/-- The target user row as delivered by the user repository; `id` is
str(user.id). -/
structure DbUser where
  id : String
  email : String
deriving DecidableEq

/-- Outcome of UserService.update: a raised exception, or the updated row /
None. -/
inductive UpdateOutcome where
  | raises (msg : String)
  | returns (u : Option DbUser)
deriving DecidableEq

/-- Collaborator outcomes visible to one run of the route: the get_by_id
result, the minio world, the update outcome, and whether response assembly
(model_validate / model_dump / link creation) raises. -/
structure RouteWorld where
  user : Option DbUser
  minio : MinioWorld
  update_outcome : UpdateOutcome
  response_error : Option String
deriving DecidableEq

/-- Lines 75-77: authorization is denied when the caller lacks the
ADMIN/MANAGER role and the token subject equals neither the target's email
nor str(target.id). -/
def authorization_denied (cu : CurrentUser) (u : DbUser) : Bool :=
  (cu.role != "ADMIN" && cu.role != "MANAGER") &&
    cu.user_id != u.email && cu.user_id != u.id

/-- Line 115: `".".join(filename.lower().split(".")[1:])` when a dot occurs,
otherwise "" (used only in the rejection message). -/
def route_file_ext (filename : String) : String :=
  if filename.data.contains '.' then
    String.mk (List.intercalate ['.'] ((py_split '.' (py_lower filename).data).drop 1))
  else ""

/-- upload_profile_picture (lines 31-194): user lookup, authorization,
cheap file-shape checks, the storage call, the repository update, response
assembly.  HTTPExceptions raised by the storage service are re-raised
unchanged (lines 126-129, 184-187).  Returns the outcome plus the storage
events issued. -/
def upload_route (w : RouteWorld) (cu : CurrentUser) (f : UploadFileModel)
    (user_id : String) (ts : Timestamp) : Except Http DbUser × List StorageEvent :=
  match w.user with
  | none =>
    (.error ⟨404, "User not found. Please verify the user exists and try again."⟩, [])
  | some user =>
    if authorization_denied cu user then
      (.error ⟨403, "You can only update your own profile picture"⟩, [])
    else
      -- lines 84-121: seek(0) on the (seekable) upload, then the cheap checks
      if !optStrTruthy f.content_type then
        (.error ⟨400,
          "Missing content type. Please ensure you're uploading a valid image file."⟩, [])
      else if !py_startswith (f.content_type.getD "") "image/" then
        (.error ⟨400, "Invalid file type: " ++ f.content_type.getD "" ++
          ". Only image files are allowed (jpg, jpeg, png, gif)."⟩, [])
      else if !optStrTruthy f.filename then
        (.error ⟨400, "Missing filename. Please ensure your image file has a name."⟩, [])
      else if !([".jpg", ".jpeg", ".png", ".gif"].any
          (fun ext => py_endswith (py_lower (f.filename.getD "")) ext)) then
        (.error ⟨400, "Invalid file extension: ." ++ route_file_ext (f.filename.getD "") ++
          ". Allowed extensions are: .jpg, .jpeg, .png, .gif"⟩, [])
      else
        let r := minio_upload w.minio f user_id ts
        match r.1 with
        | .error e => (.error e, r.2)
        | .ok _ =>
          match w.update_outcome with
          | .raises _ =>
            (.error ⟨500,
              "Failed to update user profile with new picture. Please try again later."⟩, r.2)
          | .returns none =>
            (.error ⟨404,
              "User not found. Please verify the user exists and try again."⟩, r.2)
          | .returns (some updated) =>
            match w.response_error with
            | some msg => (.error ⟨500, "Failed to create response: " ++ msg⟩, r.2)
            | none => (.ok updated, r.2)

/-! ## Password hashing (app/utils/security.py lines 11-51)

Modelled from the spec: the bcrypt primitive is an external C library, not
part of this repository.  §4.1 of the spec describes it as a salted,
adaptive one-way hash with a configurable cost factor, verified via the same
primitive.  The model keeps exactly what the stated properties depend on:
hashpw is a deterministic function of cost, salt and the first 72 bytes of
the password (bcrypt's effective input length); the produced hash embeds its
cost and salt; checkpw re-hashes the candidate password with the embedded
parameters and compares; gensalt rejects cost factors outside bcrypt's 4..31
range (the ValueError that hash_password wraps).  One-wayness is irrelevant
to the stated round-trip property and is not modelled; distinct truncated
inputs hashing to distinct digests stands for bcrypt's collision
resistance.  Characters stand for bytes of the UTF-8 encoding. -/

/-- A parsed bcrypt hash: cost factor, salt, digest. -/
structure BcryptHash where
  cost : Nat
  salt : List Nat
  digest : List Nat
deriving DecidableEq

/-- bcrypt ignores password bytes beyond the 72nd. -/
def bcrypt_effective (password : List Nat) : List Nat := password.take 72

/-- Modelled from the spec: bcrypt.hashpw - deterministic salted digest of
the effective password bytes. -/
def bcrypt_hashpw (password : List Nat) (cost : Nat) (salt : List Nat) : BcryptHash :=
  ⟨cost, salt, bcrypt_effective password⟩

/-- Modelled from the spec: bcrypt.checkpw - re-hash with the embedded cost
and salt, then compare. -/
def bcrypt_checkpw (password : List Nat) (h : BcryptHash) : Bool :=
  bcrypt_hashpw password h.cost h.salt == h

/-- str.encode('utf-8'): an injective byte sequence for the string (one unit
per character in this model). -/
def utf8_bytes (s : String) : List Nat := s.toList.map Char.toNat

/-- security.py lines 11-31: gensalt with the given cost factor (ValueError
outside 4..31, wrapped into the "Failed to hash password" ValueError), then
hashpw on the UTF-8 bytes.  `salt_entropy` is the random salt gensalt drew. -/
def hash_password (password : String) (rounds : Nat) (salt_entropy : List Nat) :
    Except String BcryptHash :=
  if rounds < 4 || rounds > 31 then .error "Failed to hash password"
  else .ok (bcrypt_hashpw (utf8_bytes password) rounds salt_entropy)

/-- security.py lines 33-51: checkpw on the UTF-8 bytes of the candidate
against a stored (well-formed) hash. -/
def verify_password (plain_password : String) (hashed_password : BcryptHash) : Bool :=
  bcrypt_checkpw (utf8_bytes plain_password) hashed_password

/-- Status of a route outcome: the HTTP error status, or none on success. -/
def errorStatus {α : Type} : Except Http α → Option Nat
  | .error e => some e.status
  | .ok _ => none

/-! ## Theorems -/

/-- C7: for every seekable uploaded file, validate_image_file leaves the
stream cursor at position 0 on every exit path — acceptance, every rejection
branch, and any exception raised by the decode step (the finally clause at
lines 152-157 performs the final seek on all of them). -/
theorem validate_image_file_restores_cursor (decode : List Nat → ImgDecode)
    (f : UploadFileModel) (st : StreamState) (h : f.seekable = true) :
    ((validate_image_file decode f st).2).pos = 0 := by
  simp [validate_image_file, h]

/-- Witness for C7 at a concrete seekable file whose decode step raises. -/
theorem validate_image_file_restores_cursor_witness :
    (UploadFileModel.mk (some "a.jpg") (some "image/jpeg") [1, 2, 3] true).seekable
        = true ∧
      ((validate_image_file (fun _ => .otherError "boom")
        (UploadFileModel.mk (some "a.jpg") (some "image/jpeg") [1, 2, 3] true)
        ⟨7⟩).2).pos = 0 :=
  ⟨rfl, validate_image_file_restores_cursor _ _ _ rfl⟩

/-- C4 (code bug): verify_token_expiration is claimed never to raise, but a
token that is valid base64 of valid JSON whose top-level value is not an
object — for example "W10=", which decodes to the JSON list [] — reaches
`decoded_data.get("token")` at line 104 and raises AttributeError, which the
except clause at line 118 (ValueError, KeyError, JSONDecodeError,
binascii.Error) does not catch.  By contrast a base64-level failure is
caught and degrades to (False, "") as claimed. -/
theorem verify_token_expiration_raises_on_nonobject_json :
    verify_token_expiration (fun _ => none) (.ok (.arr [])) 0 = .raise .attributeError ∧
      verify_token_expiration (fun _ => none) .base64Error 0 = .ret (false, .str "") :=
  ⟨rfl, rfl⟩

/-- C5 (code bug): the round-trip parts hold — a freshly generated token
verifies to (true, secret) up to the embedded expiry instant and to
(false, secret) afterwards (`fmt`/`fromiso` stand for the datetime codec,
whose documented round-trip on aware instants is the hypothesis `hiso`) —
but the final clause fails: a structurally invalid token whose JSON decodes
to a non-object value (such as "Nw==", base64 of the JSON number 7) raises
AttributeError instead of returning (false, ""). -/
theorem token_roundtrip_and_invalid_input (fmt : Int → String)
    (fromiso : String → Option PyDatetime) (secret : String) (now h nowv : Int)
    (_hh : 0 < h) (hsec : secret ≠ "") (hfmt : fmt (now + h * 3600) ≠ "")
    (hiso : fromiso (fmt (now + h * 3600)) = some ⟨now + h * 3600, true⟩) :
    (nowv ≤ now + h * 3600 →
      verify_token_expiration fromiso
        (.ok (generate_verification_token fmt secret now h)) nowv
        = .ret (true, .str secret)) ∧
    (now + h * 3600 < nowv →
      verify_token_expiration fromiso
        (.ok (generate_verification_token fmt secret now h)) nowv
        = .ret (false, .str secret)) ∧
    verify_token_expiration fromiso (.ok (.num 7)) nowv = .raise .attributeError := by
  refine ⟨?_, ?_, rfl⟩ <;>
    intro hcmp <;>
      simp [verify_token_expiration, generate_verification_token, pyDictGet,
        pyTruthy, hsec, hfmt, hiso] <;>
        omega

/-- Witness for C5 at a concrete datetime codec, secret and clock. -/
theorem token_roundtrip_and_invalid_input_witness :
    (0 : Int) < 2 ∧ "s3cret" ≠ "" ∧
      (fun t : Int => toString t) (0 + 2 * 3600) ≠ "" ∧
      (fun s => if s = "7200" then some (PyDatetime.mk 7200 true) else none)
          ((fun t : Int => toString t) (0 + 2 * 3600))
        = some (PyDatetime.mk (0 + 2 * 3600) true) ∧
      ((0 : Int) ≤ 0 + 2 * 3600 →
        verify_token_expiration
          (fun s => if s = "7200" then some (PyDatetime.mk 7200 true) else none)
          (.ok (generate_verification_token (fun t : Int => toString t) "s3cret" 0 2)) 0
          = .ret (true, .str "s3cret")) :=
  ⟨by decide, by decide, by decide, by decide,
    (token_roundtrip_and_invalid_input (fun t : Int => toString t)
      (fun s => if s = "7200" then some (PyDatetime.mk 7200 true) else none)
      "s3cret" 0 2 0 (by decide) (by decide) (by decide) (by decide)).1⟩

/-- Characters (standing for UTF-8 bytes) are recovered from their codes, so
utf8_bytes is injective. -/
theorem utf8_bytes_injective : Function.Injective utf8_bytes := by
  intro a b hab
  have hchar : Function.Injective Char.toNat := by
    intro c d hcd
    have := congrArg Char.ofNat hcd
    rwa [Char.ofNat_toNat, Char.ofNat_toNat] at this
  have hlist : a.toList = b.toList := List.map_injective_iff.mpr hchar hab
  have hdata : a.data = b.data := hlist
  cases a; cases b
  exact congrArg String.mk hdata

/-- C10: hashing then verifying round-trips — the stored hash embeds its
salt and cost, verify_password re-derives the digest from them, so the
original password verifies and any other password within bcrypt's effective
input length does not. -/
theorem password_hash_roundtrip (p q : String) (rounds : Nat) (salt : List Nat)
    (h : BcryptHash) (hr1 : 4 ≤ rounds) (hr2 : rounds ≤ 31)
    (hp : p.length ≤ 72) (hq : q.length ≤ 72)
    (hok : hash_password p rounds salt = .ok h) :
    verify_password p h = true ∧ (q ≠ p → verify_password q h = false) := by
  have hform : h = bcrypt_hashpw (utf8_bytes p) rounds salt := by
    unfold hash_password at hok
    have hcond : (rounds < 4 || rounds > 31) = false := by
      simp only [Bool.or_eq_false_iff, decide_eq_false_iff_not, Nat.not_lt, not_lt]
      omega
    rw [if_neg (by simp_all)] at hok
    exact (Except.ok.injEq _ _).mp hok.symm
  have hlen : ∀ s : String, (utf8_bytes s).length = s.length := by
    intro s
    simp only [utf8_bytes, List.length_map]
    rfl
  constructor
  · simp [verify_password, bcrypt_checkpw, hform, bcrypt_hashpw]
  · intro hne
    simp only [verify_password, bcrypt_checkpw, hform, bcrypt_hashpw,
      bcrypt_effective, beq_eq_false_iff_ne, ne_eq, BcryptHash.mk.injEq]
    intro hcon
    apply hne
    apply utf8_bytes_injective
    have htq : (utf8_bytes q).take 72 = utf8_bytes q :=
      List.take_of_length_le (by rw [hlen]; exact hq)
    have htp : (utf8_bytes p).take 72 = utf8_bytes p :=
      List.take_of_length_le (by rw [hlen]; exact hp)
    rw [htq, htp] at hcon
    exact hcon.2.2

/-- Witness for C10 at concrete passwords and cost factor. -/
theorem password_hash_roundtrip_witness :
    4 ≤ 12 ∧ 12 ≤ 31 ∧ "abc".length ≤ 72 ∧ "abd".length ≤ 72 ∧
      hash_password "abc" 12 [9, 9] = .ok ⟨12, [9, 9], [97, 98, 99]⟩ ∧
      "abd" ≠ "abc" ∧
      verify_password "abc" ⟨12, [9, 9], [97, 98, 99]⟩ = true ∧
      verify_password "abd" ⟨12, [9, 9], [97, 98, 99]⟩ = false := by
  refine ⟨by decide, by decide, by decide, by decide, by rfl, by decide, ?_, ?_⟩
  · exact (password_hash_roundtrip "abc" "abd" 12 [9, 9] ⟨12, [9, 9], [97, 98, 99]⟩
      (by decide) (by decide) (by decide) (by decide) (by rfl)).1
  · exact (password_hash_roundtrip "abc" "abd" 12 [9, 9] ⟨12, [9, 9], [97, 98, 99]⟩
      (by decide) (by decide) (by decide) (by decide) (by rfl)).2 (by decide)

/-- Decimal digit characters are distinct for distinct digits. -/
theorem digitChar_inj_lt_ten (a b : Nat) (ha : a < 10) (hb : b < 10)
    (h : Nat.digitChar a = Nat.digitChar b) : a = b := by
  interval_cases a <;> interval_cases b <;> revert h <;> decide

/-- pad2l is injective below 100. -/
theorem pad2l_inj (a b : Nat) (ha : a < 100) (hb : b < 100)
    (h : pad2l a = pad2l b) : a = b := by
  simp only [pad2l, List.cons.injEq, and_true] at h
  have h1 := digitChar_inj_lt_ten (a / 10) (b / 10) (by omega) (by omega) h.1
  have h2 := digitChar_inj_lt_ten (a % 10) (b % 10) (by omega) (by omega) h.2
  omega

/-- pad4l is injective below 10000. -/
theorem pad4l_inj (a b : Nat) (ha : a < 10000) (hb : b < 10000)
    (h : pad4l a = pad4l b) : a = b := by
  simp only [pad4l, List.cons.injEq, and_true] at h
  have h1 := digitChar_inj_lt_ten (a / 1000) (b / 1000) (by omega) (by omega) h.1
  have h2 := digitChar_inj_lt_ten (a / 100 % 10) (b / 100 % 10) (by omega) (by omega) h.2.1
  have h3 := digitChar_inj_lt_ten (a / 10 % 10) (b / 10 % 10) (by omega) (by omega) h.2.2.1
  have h4 := digitChar_inj_lt_ten (a % 10) (b % 10) (by omega) (by omega) h.2.2.2
  omega

/-- strftime("%Y%m%d_%H%M%S") is injective on in-range timestamps. -/
theorem strftime_inj (t1 t2 : Timestamp) (h1 : t1.Valid) (h2 : t2.Valid)
    (h : t1.strftime = t2.strftime) : t1 = t2 := by
  obtain ⟨y1, mo1, d1, ho1, mi1, s1⟩ := t1
  obtain ⟨y2, mo2, d2, ho2, mi2, s2⟩ := t2
  simp only [Timestamp.Valid] at h1 h2
  obtain ⟨hy1, hmo1, hd1, hho1, hmi1, hs1⟩ := h1
  obtain ⟨hy2, hmo2, hd2, hho2, hmi2, hs2⟩ := h2
  simp only [Timestamp.strftime] at h
  have hdata : pad4l y1 ++ (pad2l mo1 ++ (pad2l d1 ++ (['_'] ++
      (pad2l ho1 ++ (pad2l mi1 ++ pad2l s1))))) =
      pad4l y2 ++ (pad2l mo2 ++ (pad2l d2 ++ (['_'] ++
      (pad2l ho2 ++ (pad2l mi2 ++ pad2l s2))))) := by
    have hd := congrArg String.data h
    simpa only [List.append_assoc] using hd
  have p1 := List.append_inj hdata (by simp [pad4l])
  have p2 := List.append_inj p1.2 (by simp [pad2l])
  have p3 := List.append_inj p2.2 (by simp [pad2l])
  have p4 := List.append_inj p3.2 (by simp)
  have p5 := List.append_inj p4.2 (by simp [pad2l])
  have p6 := List.append_inj p5.2 (by simp [pad2l])
  simp only [Timestamp.mk.injEq]
  exact ⟨pad4l_inj _ _ hy1 hy2 p1.1, pad2l_inj _ _ hmo1 hmo2 p2.1,
    pad2l_inj _ _ hd1 hd2 p3.1, pad2l_inj _ _ hho1 hho2 p5.1,
    pad2l_inj _ _ hmi1 hmi2 p6.1, pad2l_inj _ _ hs1 hs2 p6.2⟩

/-- String append concatenates the character data. -/
theorem string_data_append (a b : String) : (a ++ b).data = a.data ++ b.data := by
  cases a; cases b; rfl

/-- The rendered %Y%m%d_%H%M%S stamp always has 15 characters. -/
theorem strftime_data_length (t : Timestamp) : (t.strftime).data.length = 15 := by
  simp [Timestamp.strftime, pad4l, pad2l]

/-- C8: the active object name is exactly
profile_pictures/{userId}/profile{ext} and the archive object name exactly
profile_pictures/{userId}/archive/profile_{YYYYMMDD_HHMMSS}{ext}; two
uploads for the same user at distinct in-range timestamps yield distinct
archive names, while the active name is timestamp-independent by
construction. -/
theorem object_naming_scheme (uid ext : String) (t1 t2 : Timestamp)
    (h1 : t1.Valid) (h2 : t2.Valid) (hne : t1 ≠ t2) :
    archive_object_name uid t1 ext
        = "profile_pictures/" ++ uid ++ "/archive/profile_" ++ t1.strftime ++ ext ∧
      active_object_name uid ext = "profile_pictures/" ++ uid ++ "/profile" ++ ext ∧
      archive_object_name uid t1 ext ≠ archive_object_name uid t2 ext := by
  refine ⟨rfl, rfl, ?_⟩
  intro hcon
  apply hne
  apply strftime_inj t1 t2 h1 h2
  have hd := congrArg String.data hcon
  simp only [archive_object_name, string_data_append, List.append_assoc] at hd
  have hd1 := List.append_cancel_left hd
  have hd2 := List.append_cancel_left hd1
  have hd3 := List.append_cancel_left hd2
  have hts := List.append_inj hd3
    (by rw [strftime_data_length, strftime_data_length])
  exact congrArg String.mk hts.1

/-- Witness for C8 at two concrete timestamps one second apart. -/
theorem object_naming_scheme_witness :
    (Timestamp.mk 2025 1 1 0 0 0).Valid ∧ (Timestamp.mk 2025 1 1 0 0 1).Valid ∧
      Timestamp.mk 2025 1 1 0 0 0 ≠ Timestamp.mk 2025 1 1 0 0 1 ∧
      archive_object_name "u1" (Timestamp.mk 2025 1 1 0 0 0) ".jpg"
        ≠ archive_object_name "u1" (Timestamp.mk 2025 1 1 0 0 1) ".jpg" :=
  ⟨by decide, by decide, by decide,
    (object_naming_scheme "u1" ".jpg" (Timestamp.mk 2025 1 1 0 0 0)
      (Timestamp.mk 2025 1 1 0 0 1) (by decide) (by decide) (by decide)).2.2⟩

/-- C9: for a file that passes the cheap checks (filename, content type,
allowed extension) and whose bytes decode successfully as an image,
validate_image_file accepts — returning (True, None, {format, width, height,
mode}) — exactly when both dimensions lie in [10, 5000], the decoded format
is one of JPEG, PNG, GIF, and the filename extension belongs to the decoded
format's extension set; in every other case it rejects. -/
theorem validate_image_file_decoded_acceptance
    (decode : List Nat → ImgDecode) (f : UploadFileModel) (st : StreamState)
    (fmt mode : String) (w h : Nat)
    (hfn : optStrTruthy f.filename = true)
    (hct : optStrTruthy f.content_type = true)
    (hst : py_startswith (f.content_type.getD "") "image/" = true)
    (hext : ALLOWED_EXTENSIONS.contains
      (image_validator_file_ext (f.filename.getD "")) = true)
    (hseek : f.seekable = true)
    (hdec : decode f.content = .ok fmt w h mode) :
    ((validate_image_file decode f st).1.1 = true ↔
      (10 ≤ w ∧ w ≤ 5000 ∧ 10 ≤ h ∧ h ≤ 5000 ∧
        (fmt = "JPEG" ∨ fmt = "PNG" ∨ fmt = "GIF") ∧
        image_validator_file_ext (f.filename.getD "") ∈ allowedFormatExts fmt)) ∧
    ((10 ≤ w ∧ w ≤ 5000 ∧ 10 ≤ h ∧ h ≤ 5000 ∧
        (fmt = "JPEG" ∨ fmt = "PNG" ∨ fmt = "GIF") ∧
        image_validator_file_ext (f.filename.getD "") ∈ allowedFormatExts fmt) →
      (validate_image_file decode f st).1 = (true, none, some ⟨fmt, w, h, mode⟩)) := by
  have hcore : (validate_image_file decode f st).1 =
      (if w > 5000 ∨ h > 5000 then
        (false, some "Image dimensions too large. Maximum allowed: 5000x5000 pixels", none)
      else if w < 10 ∨ h < 10 then
        (false, some "Image dimensions too small. Minimum allowed: 10x10 pixels", none)
      else if ¬(fmt = "JPEG" ∨ fmt = "PNG" ∨ fmt = "GIF") then
        (false, some ("Unsupported image format: " ++ fmt), none)
      else if ¬(image_validator_file_ext (f.filename.getD "") ∈ allowedFormatExts fmt) then
        (false, some ("File extension " ++ image_validator_file_ext (f.filename.getD "") ++
          " does not match the actual image format " ++ fmt), none)
      else (true, none, some ⟨fmt, w, h, mode⟩)) := by
    unfold validate_image_file validate_image_file_body
    simp only [hfn, hct, hst, hext, hseek, hdec, Bool.not_true, Bool.false_eq_true, if_false,
      MAX_IMAGE_WIDTH, MAX_IMAGE_HEIGHT, MIN_IMAGE_WIDTH, MIN_IMAGE_HEIGHT]
    simp [ALLOWED_FORMATS, decide_eq_true_eq, Bool.or_eq_true]
    split_ifs <;> rfl
  rw [hcore]
  by_cases hb : w > 5000 ∨ h > 5000
  · rw [if_pos hb]
    refine ⟨⟨fun hx => Bool.noConfusion hx, ?_⟩, ?_⟩
    all_goals
      rintro ⟨c1, c2, c3, c4, c5, c6⟩
      exfalso
      omega
  · rw [if_neg hb]
    by_cases hs : w < 10 ∨ h < 10
    · rw [if_pos hs]
      refine ⟨⟨fun hx => Bool.noConfusion hx, ?_⟩, ?_⟩
      all_goals
        rintro ⟨c1, c2, c3, c4, c5, c6⟩
        exfalso
        omega
    · rw [if_neg hs]
      by_cases hf : fmt = "JPEG" ∨ fmt = "PNG" ∨ fmt = "GIF"
      · rw [if_neg (not_not_intro hf)]
        by_cases hm : image_validator_file_ext (f.filename.getD "") ∈ allowedFormatExts fmt
        · rw [if_neg (not_not_intro hm)]
          push_neg at hb hs
          exact ⟨⟨fun _ => ⟨by omega, by omega, by omega, by omega, hf, hm⟩, fun _ => rfl⟩,
            fun _ => rfl⟩
        · rw [if_pos hm]
          refine ⟨⟨fun hx => Bool.noConfusion hx, ?_⟩, ?_⟩
          all_goals
            rintro ⟨c1, c2, c3, c4, c5, c6⟩
            exact absurd c6 hm
      · rw [if_pos hf]
        refine ⟨⟨fun hx => Bool.noConfusion hx, ?_⟩, ?_⟩
        all_goals
          rintro ⟨c1, c2, c3, c4, c5, c6⟩
          exact absurd c5 hf

/-- Witness for C9 at a concrete decodable JPEG file. -/
theorem validate_image_file_decoded_acceptance_witness :
    optStrTruthy (UploadFileModel.mk (some "a.jpg") (some "image/jpeg") [1, 2, 3] true).filename
        = true ∧
      ALLOWED_EXTENSIONS.contains (image_validator_file_ext "a.jpg") = true ∧
      (validate_image_file (fun _ => .ok "JPEG" 100 120 "RGB")
          (UploadFileModel.mk (some "a.jpg") (some "image/jpeg") [1, 2, 3] true) ⟨0⟩).1
        = (true, none, some ⟨"JPEG", 100, 120, "RGB"⟩) :=
  ⟨rfl, by decide,
    (validate_image_file_decoded_acceptance (fun _ => .ok "JPEG" 100 120 "RGB")
      (UploadFileModel.mk (some "a.jpg") (some "image/jpeg") [1, 2, 3] true) ⟨0⟩
      "JPEG" "RGB" 100 120 rfl rfl (by decide) (by decide) rfl rfl).2
      ⟨by decide, by decide, by decide, by decide, by decide, by decide⟩⟩

/-- Every error raised out of the post-bucket part of the upload carries
status 500: the blanket except clause wraps the inner HTTPExceptions. -/
theorem minio_upload_rest_error_status (w : MinioWorld) (f : UploadFileModel)
    (uid : String) (ts : Timestamp) (evB : List StorageEvent) (e : Http)
    (h : (minio_upload_rest w f uid ts evB).1 = .error e) : e.status = 500 := by
  unfold minio_upload_rest at h
  split at h <;> dsimp only at h <;> split at h
  all_goals
    first
      | exact Except.noConfusion h
      | (simp only [Except.error.injEq] at h; rw [← h])

/-- Every error raised out of MinioService.upload_profile_picture carries
status 500 (the inner 400s are wrapped by the except at line 206). -/
theorem minio_upload_error_status (w : MinioWorld) (f : UploadFileModel)
    (uid : String) (ts : Timestamp) (e : Http)
    (h : (minio_upload w f uid ts).1 = .error e) : e.status = 500 := by
  unfold minio_upload at h
  split at h
  · simp only [Except.error.injEq] at h
    rw [← h]
  · split at h
    · exact minio_upload_rest_error_status _ _ _ _ _ _ h
    · split at h
      · simp only [Except.error.injEq] at h
        rw [← h]
      · exact minio_upload_rest_error_status _ _ _ _ _ _ h

/-- Auxiliary to C6: when the target user exists and authorization passes,
no branch of the route produces a 403 — the other failures carry 400, 404 or
500 (minio errors are all 500 by minio_upload_error_status). -/
theorem upload_route_no_other_403 (w : RouteWorld) (cu : CurrentUser)
    (f : UploadFileModel) (user_id : String) (ts : Timestamp) (u : DbUser)
    (hu : w.user = some u) (hd : authorization_denied cu u = false) (d : String) :
    (upload_route w cu f user_id ts).1 ≠ .error ⟨403, d⟩ := by
  rcases hm : minio_upload w.minio f user_id ts with ⟨res, tr⟩
  unfold upload_route
  rw [hu]
  simp only [hd, Bool.false_eq_true, if_false, hm]
  cases res with
  | error e =>
    have h500 : e.status = 500 := minio_upload_error_status _ _ _ _ _ (by rw [hm])
    intro hcon
    repeat' split at hcon
    all_goals simp_all
  | ok url =>
    intro hcon
    repeat' split at hcon
    all_goals simp_all

/-- C6: on an existing target user the upload fails with Forbidden (403)
exactly when the caller's role is neither ADMIN nor MANAGER and the token
subject equals neither the target's email nor str(target.id); in every
other case authorization passes (no 403 arises). -/
theorem upload_forbidden_iff (w : RouteWorld) (cu : CurrentUser)
    (f : UploadFileModel) (user_id : String) (ts : Timestamp) (u : DbUser)
    (hu : w.user = some u) :
    (∃ d, (upload_route w cu f user_id ts).1 = .error ⟨403, d⟩) ↔
      (cu.role ≠ "ADMIN" ∧ cu.role ≠ "MANAGER" ∧
        cu.user_id ≠ u.email ∧ cu.user_id ≠ u.id) := by
  have hiff : authorization_denied cu u = true ↔
      (cu.role ≠ "ADMIN" ∧ cu.role ≠ "MANAGER" ∧
        cu.user_id ≠ u.email ∧ cu.user_id ≠ u.id) := by
    simp [authorization_denied, and_assoc]
  by_cases hd : authorization_denied cu u = true
  · constructor
    · intro _
      exact hiff.mp hd
    · intro _
      refine ⟨"You can only update your own profile picture", ?_⟩
      unfold upload_route
      rw [hu]
      simp [hd]
  · rw [Bool.not_eq_true] at hd
    constructor
    · rintro ⟨d, hdd⟩
      exact absurd hdd (upload_route_no_other_403 w cu f user_id ts u hu hd d)
    · intro hc
      exact absurd (hiff.mpr hc) (by simp [hd])

/-- Witness for C6: a caller with role AUTHENTICATED whose subject matches
neither the id nor the email of the existing target user. -/
theorem upload_forbidden_iff_witness :
    (RouteWorld.mk (some (DbUser.mk "u-1" "a@b.c"))
        (MinioWorld.mk "bkt" none true none none none "gen") (.returns none) none).user
        = some (DbUser.mk "u-1" "a@b.c") ∧
      ((∃ d, (upload_route
          (RouteWorld.mk (some (DbUser.mk "u-1" "a@b.c"))
            (MinioWorld.mk "bkt" none true none none none "gen") (.returns none) none)
          (CurrentUser.mk "someone-else" "AUTHENTICATED")
          (UploadFileModel.mk (some "a.jpg") (some "image/jpeg") [1] true)
          "u-1" ⟨2025, 1, 1, 0, 0, 0⟩).1 = .error ⟨403, d⟩) ↔
        ("AUTHENTICATED" ≠ "ADMIN" ∧ "AUTHENTICATED" ≠ "MANAGER" ∧
          "someone-else" ≠ "a@b.c" ∧ "someone-else" ≠ "u-1")) :=
  ⟨rfl, upload_forbidden_iff _ _ _ _ _ _ rfl⟩

/-- Counterexample to C2: with the target user present, authorization
passing, a valid file and both storage writes succeeding, an update that
reports no updated record (UserService.update returns None) makes the route
raise 404 Not Found (line 160-163 of profile_picture_routes.py), not the
claimed InternalError 500. -/
theorem update_none_counterexample :
    errorStatus (upload_route
      (RouteWorld.mk (some (DbUser.mk "u-1" "a@b.c"))
        (MinioWorld.mk "bkt" none true none none none "gen") (.returns none) none)
      (CurrentUser.mk "admin-sub" "ADMIN")
      (UploadFileModel.mk (some "a.jpg") (some "image/jpeg") [1] true)
      "u-1" ⟨2025, 1, 1, 0, 0, 0⟩).1 = some 404 := rfl

/-- C2 amended: in uploadProfilePicture, after the storage writes succeed,
an update reporting no updated record makes the operation fail with
NotFound (404, "User not found. Please verify the user exists and try
again.") — the 500 InternalError is raised only when the update call itself
raises. -/
theorem update_none_not_found (w : RouteWorld) (cu : CurrentUser)
    (f : UploadFileModel) (user_id : String) (ts : Timestamp) (u : DbUser)
    (url : String) (tr : List StorageEvent)
    (hu : w.user = some u)
    (hd : authorization_denied cu u = false)
    (hct : optStrTruthy f.content_type = true)
    (hst : py_startswith (f.content_type.getD "") "image/" = true)
    (hfn : optStrTruthy f.filename = true)
    (hex : ([".jpg", ".jpeg", ".png", ".gif"].any
      (fun ext => py_endswith (py_lower (f.filename.getD "")) ext)) = true)
    (hm : minio_upload w.minio f user_id ts = (.ok url, tr))
    (hupd : w.update_outcome = .returns none) :
    (upload_route w cu f user_id ts).1 =
      .error ⟨404, "User not found. Please verify the user exists and try again."⟩ := by
  unfold upload_route
  rw [hu]
  simp [hd, hct, hst, hfn, hex, hm, hupd]

/-- Witness for C2's amended statement at the counterexample's input. -/
theorem update_none_not_found_witness :
    minio_upload (MinioWorld.mk "bkt" none true none none none "gen")
        (UploadFileModel.mk (some "a.jpg") (some "image/jpeg") [1] true)
        "u-1" ⟨2025, 1, 1, 0, 0, 0⟩
        = (.ok "https://example.com/profiles/u-1/picture",
           [.bucketExistsCheck "bkt",
            .putObject "bkt" "profile_pictures/u-1/archive/profile_20250101_000000.jpg"
              1 "image/jpeg",
            .putObject "bkt" "profile_pictures/u-1/profile.jpg" 1 "image/jpeg"]) ∧
      (upload_route
        (RouteWorld.mk (some (DbUser.mk "u-1" "a@b.c"))
          (MinioWorld.mk "bkt" none true none none none "gen") (.returns none) none)
        (CurrentUser.mk "admin-sub" "ADMIN")
        (UploadFileModel.mk (some "a.jpg") (some "image/jpeg") [1] true)
        "u-1" ⟨2025, 1, 1, 0, 0, 0⟩).1 =
        .error ⟨404, "User not found. Please verify the user exists and try again."⟩ :=
  ⟨rfl, update_none_not_found _ _ _ _ _ (DbUser.mk "u-1" "a@b.c")
    "https://example.com/profiles/u-1/picture"
    [.bucketExistsCheck "bkt",
     .putObject "bkt" "profile_pictures/u-1/archive/profile_20250101_000000.jpg"
       1 "image/jpeg",
     .putObject "bkt" "profile_pictures/u-1/profile.jpg" 1 "image/jpeg"]
    rfl rfl rfl (by decide) rfl (by decide) rfl rfl⟩

/-- C1 (code bug): cheap-shape failures (here: a non-image content type) are
rejected 400 with no storage interaction, as claimed; but an empty payload
reaches MinioService first, which performs the bucket-existence check and —
when the bucket is absent — creates the bucket before the empty-file check,
and the inner HTTPException(400, "Empty file received…") is then caught by
the blanket `except Exception` at line 206 of minio_service.py and
re-raised as a 500.  So for empty (and oversized) payloads the rejection is
neither BadRequest nor ahead of every storage mutation. -/
theorem upload_validation_vs_storage_order :
    upload_route
        (RouteWorld.mk (some (DbUser.mk "u-1" "a@b.c"))
          (MinioWorld.mk "bkt" none false none none none "gen")
          (.returns (some (DbUser.mk "u-1" "a@b.c"))) none)
        (CurrentUser.mk "admin-sub" "ADMIN")
        (UploadFileModel.mk (some "x.jpg") (some "text/plain") [1] true)
        "u-1" ⟨2025, 1, 1, 0, 0, 0⟩
      = (.error ⟨400,
          "Invalid file type: text/plain. Only image files are allowed (jpg, jpeg, png, gif)."⟩,
         []) ∧
    upload_route
        (RouteWorld.mk (some (DbUser.mk "u-1" "a@b.c"))
          (MinioWorld.mk "bkt" none false none none none "gen")
          (.returns (some (DbUser.mk "u-1" "a@b.c"))) none)
        (CurrentUser.mk "admin-sub" "ADMIN")
        (UploadFileModel.mk (some "empty.jpg") (some "image/jpeg") [] true)
        "u-1" ⟨2025, 1, 1, 0, 0, 0⟩
      = (.error ⟨500,
          "Error processing file upload: 400: Empty file received. Please select a valid image file."⟩,
         [.bucketExistsCheck "bkt", .makeBucket "bkt"]) :=
  ⟨rfl, rfl⟩

/-- Counterexample to C3: two runs of validate_image_and_raise on the same
non-image file, differing only in ambient environment state (TEST_MODE unset
vs set; no caller-supplied flag exists in the signature), produce opposite
outcomes: strict mode raises 400, test mode returns the placeholder
metadata. -/
theorem validation_env_dependence_counterexample :
    (validate_image_and_raise (EnvState.mk false false) (fun _ => .unidentified)
        (UploadFileModel.mk (some "test_image.jpg") (some "image/jpeg")
          test_image_content true) ⟨0⟩).1
      = .raise (.httpException ⟨400, "The file is not a valid image"⟩) ∧
    (validate_image_and_raise (EnvState.mk true false) (fun _ => .unidentified)
        (UploadFileModel.mk (some "test_image.jpg") (some "image/jpeg")
          test_image_content true) ⟨0⟩).1
      = .ret (some mock_metadata) :=
  ⟨rfl, rfl⟩

/-- C3 amended: the validation bypass is triggered by implicit ambient
detection — the TEST_MODE environment variable or the presence of pytest
among the loaded modules — not by any caller-supplied flag, so the entry
point's behaviour depends on environment state: whenever either ambient
signal is on, every uploaded file yields metadata and no rejection is ever
raised. -/
theorem test_mode_bypasses_validation (env : EnvState)
    (pil : List Nat → ImgDecode) (f : UploadFileModel) (st : StreamState)
    (ht : (env.test_mode_env || env.in_pytest) = true) :
    ∃ m, (validate_image_and_raise env pil f st).1 = .ret m := by
  unfold validate_image_and_raise
  simp only [ht, if_true]
  split_ifs <;> exact ⟨_, rfl⟩

/-- Witness for C3's amended statement: pytest detected, a bogus payload,
metadata still returned. -/
theorem test_mode_bypasses_validation_witness :
    ((EnvState.mk false true).test_mode_env || (EnvState.mk false true).in_pytest) = true ∧
      (∃ m, (validate_image_and_raise (EnvState.mk false true) (fun _ => .unidentified)
        (UploadFileModel.mk (some "nope.txt") none [0] true) ⟨3⟩).1 = .ret m) :=
  ⟨rfl, test_mode_bypasses_validation _ _ _ _ rfl⟩
